import Mathlib

/-!
Shallow embedding of the `viratxd/allstate` election-data harvester.

The repository contains two generations of the harvester, `allstate.py`
(multi-page part fetcher) and `v2.py` (single-page part fetcher with a
manual 429 retry), plus a scratch request script `tes.py`.  Pure record
processing (filtering comprehensions, pagination loops, response
dispatch) is embedded as Lean functions over explicit response values;
HTTP transport, logging and the filesystem are collaborators, modelled
as oracle inputs and as an event trace respectively.  Python `dict`
fields read with `d.get(k)` are modelled as `Option` fields (a missing
key yields `none`); fields read with `d[k]` and always present in the
observed payloads are modelled as total fields, except in the assembly
records where a missing key is a reachable `KeyError`, modelled with
`Except`.
-/

/-- PARTS_PAGE_SIZE from allstate.py line 15 and v2.py line 29. -/
def PARTS_PAGE_SIZE : Nat := 10

/-- DATA_DIR from allstate.py line 16 and v2.py line 30. -/
def DATA_DIR : String := "data"

/-- ASCII-alphanumeric test, the complement of the character class
removed by the regex `[^a-zA-Z0-9]` in `sanitize_filename`. -/
def asciiAlnum (c : Char) : Bool :=
  ('a' ≤ c && c ≤ 'z') || ('A' ≤ c && c ≤ 'Z') || ('0' ≤ c && c ≤ '9')

/-- Character-level body of `sanitize_filename`: the two `str.replace`
deletions (spaces, then periods) followed by the regex substitution
`re.sub(r'[^a-zA-Z0-9]', '', ...)`, each a character filter. -/
def sanitizeChars (l : List Char) : List Char :=
  ((l.filter (fun c => c != ' ')).filter
      (fun c => c != '.')).filter (fun c => asciiAlnum c)

/-- sanitize_filename (allstate.py lines 36-39, v2.py lines 53-58):
`re.sub(r'[^a-zA-Z0-9]', '', name.replace(' ', '').replace('.', ''))`. -/
def sanitize_filename (name : String) : String :=
  String.mk (sanitizeChars name.data)

/-- Python truthiness of an optional string: `None` and `""` are falsy. -/
def strFalsy : Option String → Bool
  | none => true
  | some s => s == ""

/-- Python truthiness of an optional integer: `None` and `0` are falsy. -/
def intFalsy : Option Int → Bool
  | none => true
  | some n => n == 0

/-- Raw state record as returned by the states endpoint.  `isActive` is
read with `.get` in the source, hence optional; the other three fields
are read with `[]` and modelled as present. -/
structure StateRaw where
  stateCd : String
  stateName : String
  stateNameHindi : String
  isActive : Option String
deriving DecidableEq

/-- State record as built by `fetch_states` (the projected dict). -/
structure StateOut where
  stateCd : String
  stateName : String
  stateNameHindi : String
deriving DecidableEq

/-- Projection applied to each retained state record. -/
def projState (s : StateRaw) : StateOut :=
  ⟨s.stateCd, s.stateName, s.stateNameHindi⟩

/-- fetch_states record processing (allstate.py lines 63-70, identical
in v2.py lines 99-106): the list comprehension keeping records with
`isActive == "Y"`.  Transport failure (the `except` branch returning
`None`) is modelled at the orchestrator as the `none` oracle outcome. -/
def fetch_states (states : List StateRaw) : List StateOut :=
  (states.filter (fun s => s.isActive == some "Y")).map projState

/-- Raw district record as returned by the districts endpoint. -/
structure DistrictRaw where
  districtCd : String
  districtValue : String
  districtValueHindi : String
  isActive : Option String
deriving DecidableEq

/-- District record as built by `fetch_districts`. -/
structure DistrictOut where
  districtCd : String
  districtValue : String
  districtValueHindi : String
deriving DecidableEq

/-- Projection applied to each retained district record. -/
def projDistrict (d : DistrictRaw) : DistrictOut :=
  ⟨d.districtCd, d.districtValue, d.districtValueHindi⟩

/-- fetch_districts record processing (allstate.py lines 82-89,
identical in v2.py lines 123-130). -/
def fetch_districts (districts : List DistrictRaw) : List DistrictOut :=
  (districts.filter (fun d => d.isActive == some "Y")).map projDistrict

/-- Raw assembly record.  All four fields are read with `.get` or may
be absent in the upstream payload, hence all optional; `allstate.py`
reads the first three with `[]`, which raises `KeyError` when absent. -/
structure AssemblyRaw where
  asmblyNo : Option Int
  asmblyName : Option String
  asmblyNameL1 : Option String
  isActive : Option String
deriving DecidableEq

/-- Assembly record as built by the assembly fetchers. -/
structure AssemblyOut where
  acNumber : Int
  asmblyName : String
  asmblyNameL1 : String
deriving DecidableEq

/-- Uncaught Python exception escaping a fetcher (only `KeyError` is
reachable in the embedded fragments; it is not caught by the `except
requests.exceptions...` clauses, so it aborts the fetch and the run). -/
inductive PyError
  | keyError
deriving DecidableEq

/-- Total projection used on assembly records whose kept fields are
known to be present (defaults are never exercised on retained records). -/
def projAssembly (a : AssemblyRaw) : AssemblyOut :=
  ⟨a.asmblyNo.getD 0, a.asmblyName.getD "", a.asmblyNameL1.getD ""⟩

deriving instance DecidableEq for Except

/-- PartRec record as built by both part fetchers, and as carried by the
pages consumed by allstate.py's `fetch_parts` (which reads both keys
with `[]`). -/
structure PartRec where
  partNumber : Int
  partName : String
deriving DecidableEq

/-- Raw part record as consumed by v2.py's `fetch_parts`: `partName` is
read with `.get` (missing key tolerated), `partNumber` with `[]`. -/
structure RawPart where
  partNumber : Int
  partName : Option String
deriving DecidableEq

namespace Allstate

/-- fetch_assemblies of allstate.py (lines 101-108): the comprehension
keeps records with `isActive == "Y"` and projects the three data fields
with `[]` accesses; a missing field on a retained record raises
`KeyError`, which no `except` clause catches. -/
def fetch_assemblies : List AssemblyRaw → Except PyError (List AssemblyOut)
  | [] => .ok []
  | a :: rest =>
    if a.isActive == some "Y" then
      match a.asmblyNo, a.asmblyName, a.asmblyNameL1 with
      | some no, some nm, some l1 =>
          (fetch_assemblies rest).map (fun t => ⟨no, nm, l1⟩ :: t)
      | _, _, _ => .error .keyError
    else fetch_assemblies rest

/-- Body of one parts-endpoint HTTP response for allstate.py:
either undecodable JSON or a decoded `{status, payload}` object.  A
response lacking the `payload` key behaves as `payload = []` (both are
falsy at line 129). -/
inductive Body
  | invalid
  | json (status : String) (payload : List PartRec)
deriving DecidableEq

/-- One answer of the parts endpoint to a POST by allstate.py: a raised
transport exception, or a response with an HTTP status code and body. -/
inductive PartsResp
  | exn
  | resp (code : Nat) (body : Body)
deriving DecidableEq

/-- Pagination loop of fetch_parts (allstate.py lines 117-145).  The
oracle list gives the server's answer to page 0, 1, ... in order; the
returned pair is the accumulated `parts` list and the number of page
requests issued.  Branches, in source order: a raised
`RequestException` breaks; `raise_for_status` turns a 4xx/5xx status
into a caught `HTTPError` (break); undecodable JSON is a caught
`JSONDecodeError` (break); a non-`"Success"` status or falsy payload
breaks; a full page recurses after the fixed delay; a short page is
appended and then breaks. -/
def fetch_parts_go : List PartsResp → List PartRec → List PartRec × Nat
  | [], acc => (acc, 0)
  | r :: rest, acc =>
    match r with
    | .exn => (acc, 1)
    | .resp code body =>
      if 400 ≤ code && code < 600 then (acc, 1)
      else
        match body with
        | .invalid => (acc, 1)
        | .json st payload =>
          if st != "Success" || payload.isEmpty then (acc, 1)
          else if payload.length < PARTS_PAGE_SIZE then (acc ++ payload, 1)
          else
            let res := fetch_parts_go rest (acc ++ payload)
            (res.1, res.2 + 1)

/-- fetch_parts of allstate.py (lines 113-146): runs the pagination
loop from an empty accumulator and finishes with
`return parts if parts else None`. -/
def fetch_parts (resps : List PartsResp) : Option (List PartRec) × Nat :=
  let res := fetch_parts_go resps []
  (if res.1.isEmpty then none else some res.1, res.2)

end Allstate

namespace V2

/-- fetch_assemblies of v2.py (lines 137-164): skips records whose
`isActive` differs from `"Y"`, then records with a falsy name or
number; retained records are projected, where the unguarded
`assembly["asmblyNameL1"]` access raises `KeyError` when that key is
missing (uncaught, since only request/JSON exceptions are handled). -/
def fetch_assemblies : List AssemblyRaw → Except PyError (List AssemblyOut)
  | [] => .ok []
  | a :: rest =>
    if !(a.isActive == some "Y") then fetch_assemblies rest
    else if strFalsy a.asmblyName || intFalsy a.asmblyNo then
      fetch_assemblies rest
    else
      match a.asmblyNo, a.asmblyName, a.asmblyNameL1 with
      | some no, some nm, some l1 =>
          (fetch_assemblies rest).map (fun t => ⟨no, nm, l1⟩ :: t)
      | _, _, _ => .error .keyError

/-- Body of the parts-endpoint response for v2.py. -/
inductive Body
  | invalid
  | json (status : String) (payload : List RawPart)
deriving DecidableEq

/-- One answer of the parts endpoint to a POST by v2.py. -/
inductive Resp
  | exn
  | resp (code : Nat) (body : Body)
deriving DecidableEq

/-- Projection applied to each kept part record (the filter guarantees
`partName` is a nonempty `some`, so the default is never exercised). -/
def projPart (p : RawPart) : PartRec :=
  ⟨p.partNumber, p.partName.getD ""⟩

/-- Tail of v2.py fetch_parts after the status-code dispatch (lines
201-219): `raise_for_status` (a 4xx/5xx raises `HTTPError`, caught →
`None`); JSON decoding (`ValueError` → `None`); a non-`"Success"`
status or falsy payload → `[]`; otherwise the comprehension keeping
records with a truthy `partName`, with `return parts if parts else []`
collapsing to the filtered list itself. -/
def handle_response (code : Nat) (body : Body) : Option (List PartRec) :=
  if 400 ≤ code && code < 600 then none
  else
    match body with
    | .invalid => none
    | .json st payload =>
      if st != "Success" || payload.isEmpty then some []
      else some ((payload.filter (fun p => !(strFalsy p.partName))).map projPart)

/-- fetch_parts of v2.py (lines 175-225): a single POST; 401 and 403
return `None` immediately; a 429 sleeps and issues exactly one retry
POST whose response then flows through `handle_response` (so a second
429 raises and yields `None`); a raised `RequestException` on either
POST yields `None`.  The second component counts the POSTs issued. -/
def fetch_parts (r1 r2 : Resp) : Option (List PartRec) × Nat :=
  match r1 with
  | .exn => (none, 1)
  | .resp code body =>
    if code == 401 then (none, 1)
    else if code == 403 then (none, 1)
    else if code == 429 then
      match r2 with
      | .exn => (none, 2)
      | .resp code2 body2 => (handle_response code2 body2, 2)
    else (handle_response code body, 1)

end V2

/-- Content of one file written by `save_to_json`. -/
inductive FileData
  | states (ss : List StateOut)
  | districts (ds : List DistrictOut)
  | assemblies (xs : List AssemblyOut)
  | parts (ps : List PartRec)
deriving DecidableEq

/-- One filesystem effect of the orchestrator: `ensure_directory` or
`save_to_json`.  Paths are the `/`-separated components of the f-string
paths built in the source; an empty sanitized name contributes an empty
component (a doubled slash in the Python string). -/
inductive Event
  | mkdir (path : List String)
  | write (path : List String) (data : FileData)
deriving DecidableEq

/-- Exit situation of one `build_election_data` run. -/
inductive RunOutcome
  | fatalStates
  | notFound
  | fatalDistricts
  | completed
deriving DecidableEq

/-- Results the four fetchers hand to the orchestrator, as oracles:
`none` is the fetcher's failure return `None`. -/
structure Oracles where
  statesR : Option (List StateOut)
  districtsR : Option (List DistrictOut)
  assembliesR : String → Option (List AssemblyOut)
  partsR : String → Int → Option (List PartRec)

/-- Inner loop body of build_election_data for one assembly
(allstate.py lines 187-196, v2.py lines 274-284): ensure the assembly
directory, fetch parts, `continue` on `None`, otherwise write
`assemblies-part.json`. -/
def assemblyEvents (o : Oracles) (district_dir : List String)
    (d : DistrictOut) (a : AssemblyOut) : List Event :=
  let assembly_dir := district_dir ++ [sanitize_filename a.asmblyName]
  Event.mkdir assembly_dir ::
    match o.partsR d.districtCd a.acNumber with
    | none => []
    | some parts =>
        [Event.write (assembly_dir ++ ["assemblies-part.json"]) (.parts parts)]

/-- Loop body of build_election_data for one district (allstate.py
lines 175-196, v2.py lines 261-284): ensure the district directory,
fetch assemblies, `continue` on `None`, otherwise write
`assemblies.json` and process each assembly in order. -/
def districtEvents (o : Oracles) (state_dir : List String)
    (d : DistrictOut) : List Event :=
  let district_dir := state_dir ++ [sanitize_filename d.districtValue]
  Event.mkdir district_dir ::
    match o.assembliesR d.districtCd with
    | none => []
    | some asms =>
        Event.write (district_dir ++ ["assemblies.json"]) (.assemblies asms) ::
          asms.flatMap (assemblyEvents o district_dir d)

/-- build_election_data (allstate.py lines 148-196, v2.py lines
227-287; both files share this control flow).  Returns the ordered
filesystem events and the exit situation.  `if not states` aborts on
both the `None` failure and the empty list; the target state is
resolved with `next(...)` over the fetched states; `if districts is
None` aborts (an empty district list proceeds and writes an empty
`districts.json`). -/
def build_election_data (o : Oracles) (state_cd : String) :
    List Event × RunOutcome :=
  match o.statesR with
  | none => ([], .fatalStates)
  | some states =>
    if states.isEmpty then ([], .fatalStates)
    else
      let ev0 := [Event.mkdir [DATA_DIR],
        Event.write [DATA_DIR, "allstates.json"] (.states states)]
      match states.find? (fun s => s.stateCd == state_cd) with
      | none => (ev0, .notFound)
      | some st =>
        let state_dir := [DATA_DIR, sanitize_filename st.stateName]
        let ev1 := ev0 ++ [Event.mkdir state_dir]
        match o.districtsR with
        | none => (ev1, .fatalDistricts)
        | some districts =>
          let ev2 := ev1 ++
            [Event.write (state_dir ++ ["districts.json"]) (.districts districts)]
          (ev2 ++ districts.flatMap (districtEvents o state_dir), .completed)

/-- Filesystem interpretation of a raw component path: the OS collapses
the doubled slash produced by an empty sanitized component. -/
def normPath (p : List String) : List String :=
  p.filter (fun s => s != "")

/-- Final content of the file at normalized path `p` after a trace of
events: the last write wins (`save_to_json` truncates and rewrites). -/
def fsState (evs : List Event) (p : List String) : Option FileData :=
  (evs.filterMap (fun e =>
    match e with
    | .write q c => if normPath q == p then some c else none
    | .mkdir _ => none)).getLast?

/-- Response carrying one all-`"Success"` page, as produced by a
healthy parts endpoint. -/
def successPage (pl : List PartRec) : Allstate.PartsResp :=
  .resp 200 (.json "Success" pl)

/-- A concrete page of exactly `PARTS_PAGE_SIZE` part records. -/
def tenParts : List PartRec :=
  (List.range 10).map (fun i => ⟨(i : Int), "p"⟩)

/-- Predicate deciding whether v2.py's `fetch_assemblies` keeps a
record: active, truthy name, truthy constituency number. -/
def keepV2 (a : AssemblyRaw) : Bool :=
  a.isActive == some "Y" && !(strFalsy a.asmblyName) && !(intFalsy a.asmblyNo)

section Lemmas

theorem asciiAlnum_ne_space_dot (c : Char) (h : asciiAlnum c = true) :
    (c != ' ') = true ∧ (c != '.') = true := by
  refine ⟨?_, ?_⟩ <;> rw [bne_iff_ne] <;> rintro rfl <;> revert h <;> decide

theorem sanitizeChars_idem (l : List Char) :
    sanitizeChars (sanitizeChars l) = sanitizeChars l := by
  have h3 : ∀ c ∈ sanitizeChars l, asciiAlnum c = true :=
    fun c hc => List.of_mem_filter hc
  have e1 : (sanitizeChars l).filter (fun c => c != ' ') = sanitizeChars l :=
    List.filter_eq_self.mpr (fun c hc => (asciiAlnum_ne_space_dot c (h3 c hc)).1)
  have e2 : (sanitizeChars l).filter (fun c => c != '.') = sanitizeChars l :=
    List.filter_eq_self.mpr (fun c hc => (asciiAlnum_ne_space_dot c (h3 c hc)).2)
  have e3 : (sanitizeChars l).filter (fun c => asciiAlnum c) = sanitizeChars l :=
    List.filter_eq_self.mpr h3
  show (((sanitizeChars l).filter (fun c => c != ' ')).filter
      (fun c => c != '.')).filter (fun c => asciiAlnum c) = sanitizeChars l
  rw [e1, e2, e3]

end Lemmas

/-- C9: for every string name, the name sanitizer is idempotent:
sanitizing an already-sanitized name returns it unchanged, that is,
`sanitize_filename (sanitize_filename name) = sanitize_filename name`. -/
theorem sanitize_filename_idempotent (name : String) :
    sanitize_filename (sanitize_filename name) = sanitize_filename name :=
  congrArg String.mk (sanitizeChars_idem name.data)

section PaginationLemmas

theorem fetch_parts_go_acc (resps : List Allstate.PartsResp) (acc : List PartRec) :
    Allstate.fetch_parts_go resps acc =
      (acc ++ (Allstate.fetch_parts_go resps []).1,
        (Allstate.fetch_parts_go resps []).2) := by
  induction resps generalizing acc with
  | nil => simp [Allstate.fetch_parts_go]
  | cons r rest ih =>
    cases r with
    | exn => simp [Allstate.fetch_parts_go]
    | resp code body =>
      by_cases h4 : (decide (400 ≤ code) && decide (code < 600)) = true
      · simp [Allstate.fetch_parts_go, h4]
      · cases body with
        | invalid => simp [Allstate.fetch_parts_go, h4]
        | json st payload =>
          by_cases hs : (st != "Success" || payload.isEmpty) = true
          · simp [Allstate.fetch_parts_go, h4, hs]
          · by_cases hl : payload.length < PARTS_PAGE_SIZE
            · simp [Allstate.fetch_parts_go, h4, hs, hl]
            · simp only [Allstate.fetch_parts_go, h4, hs, hl, if_false, if_neg,
                Bool.false_eq_true, not_false_eq_true]
              rw [ih (acc ++ payload), ih ([] ++ payload)]
              simp [List.append_assoc]

theorem fetch_parts_go_pages (init : List (List PartRec)) (last : List PartRec)
    (hfull : ∀ p ∈ init, p.length = PARTS_PAGE_SIZE)
    (hlast : last.length < PARTS_PAGE_SIZE) :
    Allstate.fetch_parts_go ((init ++ [last]).map successPage) [] =
      ((init ++ [last]).flatten, init.length + 1) := by
  induction init with
  | nil =>
    by_cases he : last.isEmpty = true
    · have : last = [] := List.isEmpty_iff.mp he
      subst this
      simp [Allstate.fetch_parts_go, successPage]
    · simp [Allstate.fetch_parts_go, successPage, he, hlast]
  | cons p init' ih =>
    have hp : p.length = PARTS_PAGE_SIZE := hfull p (List.mem_cons_self p init')
    have hpe : p.isEmpty = false := by
      cases p with
      | nil => simp [PARTS_PAGE_SIZE] at hp
      | cons a t => rfl
    have hnl : ¬ p.length < PARTS_PAGE_SIZE := by omega
    have ihx := ih (fun q hq => hfull q (List.mem_cons_of_mem p hq))
    have step : Allstate.fetch_parts_go ((p :: (init' ++ [last])).map successPage) [] =
        ((Allstate.fetch_parts_go ((init' ++ [last]).map successPage) ([] ++ p)).1,
          (Allstate.fetch_parts_go ((init' ++ [last]).map successPage) ([] ++ p)).2 + 1) := by
      simp [Allstate.fetch_parts_go, successPage, hpe, hnl]
    rw [List.cons_append, step, fetch_parts_go_acc ((init' ++ [last]).map successPage) ([] ++ p),
      ihx]
    simp [List.append_assoc]

end PaginationLemmas

/-- C1 (amended): for every sequence of part pages in which each page
has exactly the fixed page size (10) except the last, which is shorter
or empty, the multi-page Part Fetcher of allstate.py issues exactly one
request per page up to and including the first short/empty page (and
none beyond it), and returns the concatenation of all those pages'
records when that concatenation is non-empty; when it is empty (the
only page is empty) it returns the no-data signal `None` instead of
the empty list. -/
theorem fetch_parts_pagination (init : List (List PartRec)) (last : List PartRec)
    (hfull : ∀ p ∈ init, p.length = PARTS_PAGE_SIZE)
    (hlast : last.length < PARTS_PAGE_SIZE) :
    Allstate.fetch_parts ((init ++ [last]).map successPage) =
      (if (init ++ [last]).flatten.isEmpty then none
        else some (init ++ [last]).flatten,
       (init ++ [last]).length) := by
  unfold Allstate.fetch_parts
  rw [fetch_parts_go_pages init last hfull hlast]
  simp

/-- A concrete short final page. -/
def lastPage : List PartRec := [⟨11, "q"⟩]

/-- C1 witness: two pages, a full one then a short one, are all
requested and concatenated. -/
theorem fetch_parts_pagination_witness :
    (∀ p ∈ [tenParts], p.length = PARTS_PAGE_SIZE) ∧
    (lastPage.length < PARTS_PAGE_SIZE) ∧
    Allstate.fetch_parts (([tenParts] ++ [lastPage]).map successPage) =
      (if ([tenParts] ++ [lastPage]).flatten.isEmpty then none
        else some ([tenParts] ++ [lastPage]).flatten,
       ([tenParts] ++ [lastPage]).length) :=
  ⟨by decide, by decide,
    fetch_parts_pagination [tenParts] lastPage (by decide) (by decide)⟩

/-- C1 counterexample: when the only page is empty, the concatenation
is the empty list but allstate.py's `fetch_parts` returns `None`
(`return parts if parts else None`), not the empty concatenation. -/
theorem fetch_parts_pagination_counterexample :
    (Allstate.fetch_parts ([([] : List PartRec)].map successPage)).1 = none ∧
    (Allstate.fetch_parts ([([] : List PartRec)].map successPage)).1 ≠
      some ([([] : List PartRec)].flatten) := by
  decide

/-- C5 (amended): v2.py's Part Fetcher, given a 429 response followed
by a 200 `"Success"` response, issues exactly one retry (two POSTs in
total) and returns the successful response's part data, and it never
issues more than one retry per call; allstate.py's Part Fetcher,
however, performs no 429 retry at all: the 429 raises `HTTPError` and
aborts that call (see the counterexample). -/
theorem fetch_parts_429_retry :
    (∀ (b : V2.Body) (payload : List RawPart), payload ≠ [] →
      V2.fetch_parts (V2.Resp.resp 429 b)
          (V2.Resp.resp 200 (V2.Body.json "Success" payload)) =
        (some ((payload.filter (fun p => !(strFalsy p.partName))).map V2.projPart),
          2)) ∧
    (∀ r1 r2, (V2.fetch_parts r1 r2).2 ≤ 2) := by
  constructor
  · intro b payload hne
    have : payload.isEmpty = false := by
      cases payload with
      | nil => exact absurd rfl hne
      | cons a t => rfl
    simp [V2.fetch_parts, V2.handle_response, this]
  · intro r1 r2
    cases r1 with
    | exn => simp [V2.fetch_parts]
    | resp code body =>
      simp only [V2.fetch_parts]
      split_ifs <;> first
        | simp
        | (cases r2 <;> simp)

/-- C5 counterexample: allstate.py's `fetch_parts`, facing a 429
response with a 200 `"Success"` page available next, issues only the
one request (no retry) and returns `None` rather than the successful
page's data. -/
theorem fetch_parts_429_retry_counterexample :
    Allstate.fetch_parts
      [Allstate.PartsResp.resp 429 (Allstate.Body.json "Success" [⟨1, "A"⟩]),
        successPage [⟨1, "A"⟩]] = (none, 1) := by
  decide

/-- C5 witness: a concrete 429-then-200 exchange for v2.py. -/
theorem fetch_parts_429_retry_witness :
    ([(⟨1, some "Booth A"⟩ : RawPart)] ≠ []) ∧
    V2.fetch_parts (V2.Resp.resp 429 V2.Body.invalid)
        (V2.Resp.resp 200 (V2.Body.json "Success" [⟨1, some "Booth A"⟩])) =
      (some (([(⟨1, some "Booth A"⟩ : RawPart)].filter
          (fun p => !(strFalsy p.partName))).map V2.projPart), 2) :=
  ⟨by decide,
    fetch_parts_429_retry.1 V2.Body.invalid [⟨1, some "Booth A"⟩] (by decide)⟩

/-- C3 (amended): in v2.py, any client/server HTTP error (directly, or
on the single retry after a 429) makes the Part Fetcher return the
failure signal `None`, which is distinct from the empty result `[]`,
and carries no partial data; the orchestrator then writes nothing for
that assembly and moves on.  In allstate.py, by contrast, an HTTP
error in mid-pagination returns the partial pages already fetched (see
the counterexample), and when nothing was fetched the failure return
`None` coincides with the empty-result return. -/
theorem fetch_parts_http_error :
    (∀ (code : Nat) (body : V2.Body) (r2 : V2.Resp), 400 ≤ code → code < 600 →
      code ≠ 429 → (V2.fetch_parts (V2.Resp.resp code body) r2).1 = none) ∧
    (∀ (body : V2.Body) (code2 : Nat) (body2 : V2.Body), 400 ≤ code2 →
      code2 < 600 →
      (V2.fetch_parts (V2.Resp.resp 429 body) (V2.Resp.resp code2 body2)).1 =
        none) ∧
    ((none : Option (List PartRec)) ≠ some []) ∧
    (∀ (o : Oracles) (ddir : List String) (d : DistrictOut) (a : AssemblyOut),
      o.partsR d.districtCd a.acNumber = none →
      assemblyEvents o ddir d a =
        [Event.mkdir (ddir ++ [sanitize_filename a.asmblyName])]) := by
  refine ⟨?_, ?_, by simp, ?_⟩
  · intro code body r2 h1 h2 h3
    by_cases e1 : code = 401
    · subst e1; simp [V2.fetch_parts]
    · by_cases e2 : code = 403
      · subst e2; simp [V2.fetch_parts]
      · simp [V2.fetch_parts, V2.handle_response, e1, e2, h3, h1, h2]
  · intro body code2 body2 h1 h2
    simp [V2.fetch_parts, V2.handle_response, h1, h2]
  · intro o ddir d a h
    simp [assemblyEvents, h]

/-- C3 counterexample: allstate.py's `fetch_parts`, after one full
page succeeds and the next request gets a 500, returns the partial
page data as a success value rather than a failure-with-no-data
signal. -/
theorem fetch_parts_http_error_counterexample :
    Allstate.fetch_parts
        [successPage tenParts, Allstate.PartsResp.resp 500 Allstate.Body.invalid] =
      (some tenParts, 2) ∧ tenParts ≠ [] := by
  decide

/-- C3 witness: a 429 retried into a 500 yields the `None` failure
signal for v2.py. -/
theorem fetch_parts_http_error_witness :
    (400 ≤ 500 ∧ 500 < 600) ∧
    (V2.fetch_parts (V2.Resp.resp 429 V2.Body.invalid)
        (V2.Resp.resp 500 V2.Body.invalid)).1 = none :=
  ⟨by decide,
    fetch_parts_http_error.2.1 V2.Body.invalid 500 V2.Body.invalid
      (by decide) (by decide)⟩

/-- C6 (amended): v2.py's Part Fetcher drops every part record whose
name is missing or empty and keeps every record with a non-empty name;
allstate.py's multi-page Part Fetcher applies no such filter and keeps
every record of every consumed page, including empty-named ones (see
the counterexample). -/
theorem parts_name_filter :
    (∀ (payload : List RawPart) (r2 : V2.Resp), payload ≠ [] →
      (V2.fetch_parts (V2.Resp.resp 200 (V2.Body.json "Success" payload)) r2).1 =
        some ((payload.filter (fun p => !(strFalsy p.partName))).map V2.projPart)) ∧
    (∀ pl : List PartRec, pl ≠ [] → pl.length < PARTS_PAGE_SIZE →
      Allstate.fetch_parts [successPage pl] = (some pl, 1)) := by
  constructor
  · intro payload r2 hne
    have he : payload.isEmpty = false := by
      cases payload with
      | nil => exact absurd rfl hne
      | cons a t => rfl
    simp [V2.fetch_parts, V2.handle_response, he]
  · intro pl hne hlen
    have he : pl.isEmpty = false := by
      cases pl with
      | nil => exact absurd rfl hne
      | cons a t => rfl
    simp [Allstate.fetch_parts, Allstate.fetch_parts_go, successPage, he, hlen, hne]

/-- C6 counterexample: a part record whose name is the empty string is
kept by allstate.py's `fetch_parts`. -/
theorem parts_name_filter_counterexample :
    Allstate.fetch_parts [successPage [⟨1, ""⟩]] = (some [⟨1, ""⟩], 1) := by
  decide

/-- C6 witness: a page mixing a named, a nameless and an empty-named
record keeps exactly the named one in v2.py. -/
theorem parts_name_filter_witness :
    ([⟨1, some "A"⟩, ⟨2, none⟩, ⟨3, some ""⟩] ≠ ([] : List RawPart)) ∧
    (V2.fetch_parts
        (V2.Resp.resp 200 (V2.Body.json "Success"
          [⟨1, some "A"⟩, ⟨2, none⟩, ⟨3, some ""⟩])) V2.Resp.exn).1 =
      some (([(⟨1, some "A"⟩ : RawPart), ⟨2, none⟩, ⟨3, some ""⟩].filter
        (fun p => !(strFalsy p.partName))).map V2.projPart) :=
  ⟨by decide,
    parts_name_filter.1 [⟨1, some "A"⟩, ⟨2, none⟩, ⟨3, some ""⟩] V2.Resp.exn
      (by decide)⟩

section AssemblyLemmas

theorem v2_fetch_assemblies_eq (rs : List AssemblyRaw)
    (h : ∀ a ∈ rs, keepV2 a = true → a.asmblyNameL1 ≠ none) :
    V2.fetch_assemblies rs = .ok ((rs.filter keepV2).map projAssembly) := by
  induction rs with
  | nil => rfl
  | cons a rest ih =>
    have hrest := ih (fun b hb => h b (List.mem_cons_of_mem a hb))
    by_cases hact : (a.isActive == some "Y") = true
    · by_cases hf : (strFalsy a.asmblyName || intFalsy a.asmblyNo) = true
      · have hk : keepV2 a = false := by
          rcases Bool.or_eq_true_iff.mp hf with hs | hi
          · simp [keepV2, hs]
          · simp [keepV2, hi]
        simp [V2.fetch_assemblies, hact, hf, List.filter_cons, hk, hrest]
      · have hk : keepV2 a = true := by
          simp only [Bool.or_eq_true_iff, not_or, Bool.not_eq_true] at hf
          simp [keepV2, hact, hf.1, hf.2]
        have hL1 := h a (List.mem_cons_self a rest) hk
        simp only [Bool.or_eq_true_iff, not_or, Bool.not_eq_true] at hf
        obtain ⟨hs, hi⟩ := hf
        cases hno : a.asmblyNo with
        | none => rw [hno] at hi; simp [intFalsy] at hi
        | some no =>
          cases hnm : a.asmblyName with
          | none => rw [hnm] at hs; simp [strFalsy] at hs
          | some nm =>
            cases hl1 : a.asmblyNameL1 with
            | none => exact absurd hl1 hL1
            | some l1 =>
              have hf2 : (strFalsy a.asmblyName || intFalsy a.asmblyNo) = false := by
                simp [hs, hi]
              rw [hnm] at hs
              rw [hno] at hi
              simp [V2.fetch_assemblies, hact, hf2, hno, hnm, hl1, hrest,
                List.filter_cons, hk, projAssembly, hs, hi, Except.map]
    · have hk : keepV2 a = false := by simp [keepV2, hact]
      simp [V2.fetch_assemblies, hact, List.filter_cons, hk, hrest]

theorem allstate_fetch_assemblies_eq (rs : List AssemblyRaw)
    (h : ∀ a ∈ rs, a.isActive = some "Y" →
      a.asmblyNo ≠ none ∧ a.asmblyName ≠ none ∧ a.asmblyNameL1 ≠ none) :
    Allstate.fetch_assemblies rs =
      .ok ((rs.filter (fun a => a.isActive == some "Y")).map projAssembly) := by
  induction rs with
  | nil => rfl
  | cons a rest ih =>
    have hrest := ih (fun b hb => h b (List.mem_cons_of_mem a hb))
    by_cases hact : (a.isActive == some "Y") = true
    · have hfields := h a (List.mem_cons_self a rest) (by
        exact beq_iff_eq.mp hact)
      cases hno : a.asmblyNo with
      | none => exact absurd hno hfields.1
      | some no =>
        cases hnm : a.asmblyName with
        | none => exact absurd hnm hfields.2.1
        | some nm =>
          cases hl1 : a.asmblyNameL1 with
          | none => exact absurd hl1 hfields.2.2
          | some l1 =>
            simp [Allstate.fetch_assemblies, hact, hno, hnm, hl1, hrest,
              List.filter_cons, projAssembly, Except.map]
    · simp [Allstate.fetch_assemblies, hact, List.filter_cons, hrest]

end AssemblyLemmas

/-- C2 (amended): the state and district fetchers retain exactly the
records whose active indicator equals `"Y"`, in source order, excluding
inactive and missing-flag records; allstate.py's assembly fetcher does
the same (provided the retained records carry their projected fields,
else it raises `KeyError`); v2.py's assembly fetcher additionally
excludes active records with a missing/empty name or a missing/zero
constituency number (see the counterexample). -/
theorem active_filter_fetchers :
    (∀ rs : List StateRaw,
      fetch_states rs = (rs.filter (fun s => s.isActive == some "Y")).map projState) ∧
    (∀ rs : List DistrictRaw,
      fetch_districts rs =
        (rs.filter (fun d => d.isActive == some "Y")).map projDistrict) ∧
    (∀ rs : List AssemblyRaw, (∀ a ∈ rs, keepV2 a = true → a.asmblyNameL1 ≠ none) →
      V2.fetch_assemblies rs = .ok ((rs.filter keepV2).map projAssembly)) ∧
    (∀ rs : List AssemblyRaw, (∀ a ∈ rs, a.isActive = some "Y" →
        a.asmblyNo ≠ none ∧ a.asmblyName ≠ none ∧ a.asmblyNameL1 ≠ none) →
      Allstate.fetch_assemblies rs =
        .ok ((rs.filter (fun a => a.isActive == some "Y")).map projAssembly)) :=
  ⟨fun _ => rfl, fun _ => rfl, v2_fetch_assemblies_eq, allstate_fetch_assemblies_eq⟩

/-- C2 counterexample: one active assembly record (missing only its
name) is in the input, yet v2.py's assembly fetcher returns an empty
result, so the result does not contain exactly the active records. -/
theorem active_filter_fetchers_counterexample :
    V2.fetch_assemblies [⟨some 5, none, some "L", some "Y"⟩] = .ok [] ∧
    ([(⟨some 5, none, some "L", some "Y"⟩ : AssemblyRaw)].filter
      (fun a => a.isActive == some "Y")).length = 1 := by
  decide

/-- C2 witness: an active and an inactive state record; an active and
an inactive assembly record for v2.py. -/
theorem active_filter_fetchers_witness :
    (∀ a ∈ [(⟨some 1, some "A", some "B", some "Y"⟩ : AssemblyRaw),
        ⟨some 2, some "C", some "D", some "N"⟩], keepV2 a = true →
        a.asmblyNameL1 ≠ none) ∧
    V2.fetch_assemblies
        [⟨some 1, some "A", some "B", some "Y"⟩,
          ⟨some 2, some "C", some "D", some "N"⟩] =
      .ok (([(⟨some 1, some "A", some "B", some "Y"⟩ : AssemblyRaw),
          ⟨some 2, some "C", some "D", some "N"⟩].filter keepV2).map projAssembly) :=
  ⟨by decide,
    active_filter_fetchers.2.2.1
      [⟨some 1, some "A", some "B", some "Y"⟩,
        ⟨some 2, some "C", some "D", some "N"⟩] (by decide)⟩

/-- C7 (amended): v2.py's assembly fetcher silently drops active
records whose name is missing/empty or whose constituency number is
missing/zero, returning a successful result for the remaining records
rather than failing the fetch; allstate.py's assembly fetcher instead
raises an uncaught `KeyError` on an active record with a missing field,
failing the whole fetch (see the counterexample). -/
theorem assemblies_missing_fields_dropped :
    (∀ a : AssemblyRaw, a.isActive = some "Y" →
      (strFalsy a.asmblyName || intFalsy a.asmblyNo) = true → keepV2 a = false) ∧
    (∀ rs : List AssemblyRaw, (∀ a ∈ rs, keepV2 a = true → a.asmblyNameL1 ≠ none) →
      V2.fetch_assemblies rs = .ok ((rs.filter keepV2).map projAssembly)) := by
  constructor
  · intro a _ hf
    rcases Bool.or_eq_true_iff.mp hf with hs | hi
    · simp [keepV2, hs]
    · simp [keepV2, hi]
  · exact v2_fetch_assemblies_eq

/-- C7 counterexample: an active assembly record with a missing name
makes allstate.py's fetcher raise `KeyError`, aborting the whole fetch
instead of silently dropping the record. -/
theorem assemblies_missing_fields_dropped_counterexample :
    Allstate.fetch_assemblies [⟨some 5, none, some "L", some "Y"⟩] =
      .error .keyError := by
  decide

/-- C7 witness: an active record with a missing number is dropped and
the rest of the fetch succeeds in v2.py. -/
theorem assemblies_missing_fields_dropped_witness :
    (∀ a ∈ [(⟨none, some "X", some "L", some "Y"⟩ : AssemblyRaw),
        ⟨some 2, some "C", some "D", some "Y"⟩], keepV2 a = true →
        a.asmblyNameL1 ≠ none) ∧
    V2.fetch_assemblies
        [⟨none, some "X", some "L", some "Y"⟩,
          ⟨some 2, some "C", some "D", some "Y"⟩] =
      .ok (([(⟨none, some "X", some "L", some "Y"⟩ : AssemblyRaw),
          ⟨some 2, some "C", some "D", some "Y"⟩].filter keepV2).map projAssembly) :=
  ⟨by decide,
    assemblies_missing_fields_dropped.2
      [⟨none, some "X", some "L", some "Y"⟩,
        ⟨some 2, some "C", some "D", some "Y"⟩] (by decide)⟩

/-- C4: the orchestrator isolates branch failures: a district whose
assemblies fetch fails contributes only its directory creation and no
write (so its branch's records appear in no subsequently written
file); likewise an assembly whose parts fetch fails; the events of one
district depend only on the oracle answers for that district's code,
so a failing branch leaves every sibling district and assembly
processed exactly as before; and a completed run is precisely the
top-level writes followed by each district's events in order. -/
theorem orchestrator_branch_isolation :
    (∀ (o : Oracles) (sdir : List String) (d : DistrictOut),
      o.assembliesR d.districtCd = none →
      districtEvents o sdir d =
        [Event.mkdir (sdir ++ [sanitize_filename d.districtValue])]) ∧
    (∀ (o : Oracles) (ddir : List String) (d : DistrictOut) (a : AssemblyOut),
      o.partsR d.districtCd a.acNumber = none →
      assemblyEvents o ddir d a =
        [Event.mkdir (ddir ++ [sanitize_filename a.asmblyName])]) ∧
    (∀ (o o2 : Oracles) (sdir : List String) (d : DistrictOut),
      o.assembliesR d.districtCd = o2.assembliesR d.districtCd →
      (∀ ac, o.partsR d.districtCd ac = o2.partsR d.districtCd ac) →
      districtEvents o sdir d = districtEvents o2 sdir d) ∧
    (∀ (o : Oracles) (scd : String) (ss : List StateOut) (st : StateOut)
        (ds : List DistrictOut),
      o.statesR = some ss → ss ≠ [] →
      ss.find? (fun s => s.stateCd == scd) = some st → o.districtsR = some ds →
      build_election_data o scd =
        ([Event.mkdir [DATA_DIR],
          Event.write [DATA_DIR, "allstates.json"] (.states ss),
          Event.mkdir [DATA_DIR, sanitize_filename st.stateName],
          Event.write [DATA_DIR, sanitize_filename st.stateName, "districts.json"]
            (.districts ds)] ++
          ds.flatMap (districtEvents o [DATA_DIR, sanitize_filename st.stateName]),
         .completed)) := by
  refine ⟨?_, ?_, ?_, ?_⟩
  · intro o sdir d h
    simp [districtEvents, h]
  · intro o ddir d a h
    simp [assemblyEvents, h]
  · intro o o2 sdir d h1 h2
    have ha : assemblyEvents o (sdir ++ [sanitize_filename d.districtValue]) d =
        assemblyEvents o2 (sdir ++ [sanitize_filename d.districtValue]) d :=
      funext (fun a => by simp [assemblyEvents, h2 a.acNumber])
    simp [districtEvents, h1, ha]
  · intro o scd ss st ds h1 h2 h3 h4
    have he : ss.isEmpty = false := by
      cases ss with
      | nil => exact absurd rfl h2
      | cons a t => rfl
    simp [build_election_data, h1, he, h3, h4, List.append_assoc]

/-- C4 witness: a run whose first district's assemblies fetch fails
and whose second district succeeds. -/
theorem orchestrator_branch_isolation_witness :
    ((⟨some [⟨"S24", "Test State", "T"⟩],
        some [⟨"D1", "Alpha", "A"⟩, ⟨"D2", "Beta", "B"⟩],
        fun cd => if cd == "D2" then some [⟨86, "Test AC", "T"⟩] else none,
        fun _ _ => none⟩ : Oracles).statesR =
      some [⟨"S24", "Test State", "T"⟩]) ∧
    build_election_data
        (⟨some [⟨"S24", "Test State", "T"⟩],
          some [⟨"D1", "Alpha", "A"⟩, ⟨"D2", "Beta", "B"⟩],
          fun cd => if cd == "D2" then some [⟨86, "Test AC", "T"⟩] else none,
          fun _ _ => none⟩ : Oracles) "S24" =
      ([Event.mkdir [DATA_DIR],
        Event.write [DATA_DIR, "allstates.json"]
          (.states [⟨"S24", "Test State", "T"⟩]),
        Event.mkdir [DATA_DIR, sanitize_filename "Test State"],
        Event.write [DATA_DIR, sanitize_filename "Test State", "districts.json"]
          (.districts [⟨"D1", "Alpha", "A"⟩, ⟨"D2", "Beta", "B"⟩])] ++
        [(⟨"D1", "Alpha", "A"⟩ : DistrictOut), ⟨"D2", "Beta", "B"⟩].flatMap
          (districtEvents
            (⟨some [⟨"S24", "Test State", "T"⟩],
              some [⟨"D1", "Alpha", "A"⟩, ⟨"D2", "Beta", "B"⟩],
              fun cd => if cd == "D2" then some [⟨86, "Test AC", "T"⟩] else none,
              fun _ _ => none⟩ : Oracles)
            [DATA_DIR, sanitize_filename "Test State"]),
       .completed) :=
  ⟨rfl,
    orchestrator_branch_isolation.2.2.2
      ⟨some [⟨"S24", "Test State", "T"⟩],
        some [⟨"D1", "Alpha", "A"⟩, ⟨"D2", "Beta", "B"⟩],
        fun cd => if cd == "D2" then some [⟨86, "Test AC", "T"⟩] else none,
        fun _ _ => none⟩ "S24" [⟨"S24", "Test State", "T"⟩]
      ⟨"S24", "Test State", "T"⟩ [⟨"D1", "Alpha", "A"⟩, ⟨"D2", "Beta", "B"⟩]
      rfl (by decide) (by decide) rfl⟩

/-- C8: a run whose state list is fetched (and non-empty) but does not
contain the requested state code performs exactly the data-directory
creation and the `allstates.json` write, then stops with the not-found
outcome: no state-specific file or directory is created beyond
`allstates.json`. -/
theorem unknown_state_aborts (o : Oracles) (scd : String) (ss : List StateOut)
    (h1 : o.statesR = some ss) (h2 : ss ≠ [])
    (h3 : ∀ s ∈ ss, s.stateCd ≠ scd) :
    build_election_data o scd =
      ([Event.mkdir [DATA_DIR],
        Event.write [DATA_DIR, "allstates.json"] (FileData.states ss)],
       RunOutcome.notFound) := by
  have hf : ss.find? (fun s => s.stateCd == scd) = none :=
    List.find?_eq_none.mpr (fun s hs => by simp [h3 s hs])
  have he : ss.isEmpty = false := by
    cases ss with
    | nil => exact absurd rfl h2
    | cons a t => rfl
  simp [build_election_data, h1, he, hf]

/-- C8 witness: requesting `"S99"` against a state list holding only
`"S24"`. -/
theorem unknown_state_aborts_witness :
    ([(⟨"S24", "Test State", "T"⟩ : StateOut)] ≠ []) ∧
    build_election_data
        (⟨some [⟨"S24", "Test State", "T"⟩], none, fun _ => none,
          fun _ _ => none⟩ : Oracles) "S99" =
      ([Event.mkdir [DATA_DIR],
        Event.write [DATA_DIR, "allstates.json"]
          (FileData.states [⟨"S24", "Test State", "T"⟩])],
       RunOutcome.notFound) :=
  ⟨by decide,
    unknown_state_aborts
      ⟨some [⟨"S24", "Test State", "T"⟩], none, fun _ => none, fun _ _ => none⟩
      "S99" [⟨"S24", "Test State", "T"⟩] rfl (by decide) (by decide)⟩

/-- A district named entirely in Devanagari, sanitizing to empty. -/
def hindiDistrict : DistrictOut := ⟨"D1", "हिंदी", "H"⟩

/-- A second sibling district named entirely in Tamil. -/
def tamilDistrict : DistrictOut := ⟨"D2", "தமிழ்", "T"⟩

/-- Oracle answers for the two non-Latin-named sibling districts:
each assemblies fetch succeeds with a distinct one-record list and
every parts fetch fails. -/
def collisionOracles : Oracles :=
  ⟨none, none,
    fun cd => if cd == "D1" then some [⟨1, "A", "A"⟩] else some [⟨2, "B", "B"⟩],
    fun _ _ => none⟩

/-- C10: a name with no ASCII letter or digit sanitizes to the empty
string; the directory path built with that empty component names the
same filesystem directory as its parent; hence each such district's
`assemblies.json` lands at the parent's `assemblies.json` path, two
distinct such siblings collide on that path, and after both are
processed the file holds the second sibling's records. -/
theorem empty_sanitize_collision :
    (∀ name : String, (∀ c ∈ name.data, asciiAlnum c = false) →
      sanitize_filename name = "") ∧
    (∀ (parent : List String) (name : String), sanitize_filename name = "" →
      normPath (parent ++ [sanitize_filename name]) = normPath parent) ∧
    (∀ (sdir : List String) (v1 v2x : String), sanitize_filename v1 = "" →
      sanitize_filename v2x = "" →
      normPath (sdir ++ [sanitize_filename v1, "assemblies.json"]) =
        normPath (sdir ++ [sanitize_filename v2x, "assemblies.json"])) ∧
    (fsState
        (districtEvents collisionOracles [DATA_DIR, "TS"] hindiDistrict ++
          districtEvents collisionOracles [DATA_DIR, "TS"] tamilDistrict)
        (normPath ([DATA_DIR, "TS"] ++ ["assemblies.json"])) =
      some (FileData.assemblies [⟨2, "B", "B"⟩])) := by
  refine ⟨?_, ?_, ?_, by decide⟩
  · intro name h
    have : sanitizeChars name.data = [] := by
      apply List.filter_eq_nil_iff.mpr
      intro c hc
      have hmem : c ∈ name.data :=
        List.mem_of_mem_filter (List.mem_of_mem_filter hc)
      simp [h c hmem]
    show String.mk (sanitizeChars name.data) = ""
    rw [this]
  · intro parent name h
    rw [h]
    simp [normPath, List.filter_append]
  · intro sdir v1 v2x h1 h2
    rw [h1, h2]

/-- C10 witness: the Devanagari district name sanitizes to empty. -/
theorem empty_sanitize_collision_witness :
    (∀ c ∈ ("हिंदी" : String).data, asciiAlnum c = false) ∧
    sanitize_filename "हिंदी" = "" :=
  ⟨by decide, empty_sanitize_collision.1 "हिंदी" (by decide)⟩
